import Mathlib

/-!
Shallow embedding of the authentication and session core of the
FastAPI-UI-Auth repository, covering the two near-duplicate
implementations under src/uiauth and src/fastapiauthenticator.

Conventions of the embedding:
* Python dictionaries keyed by the client host become functions
  String -> Option V; a missing key is none.
* Python exceptions that the application raises on purpose
  (HTTPException, RedirectException) become constructors of Outcome;
  an exception that escapes uncaught (such as the ValueError raised by
  tuple unpacking) becomes Outcome.pyError.
* Python truthiness of an optional string (None and the empty string
  are both falsy) is the function truthy.
* The helpers of the secure module (base64_decode, hex_decode,
  hex_encode, calculate_hash) are not part of src/; following the spec
  they are passed in as parameters: dec is the composition of the two
  decoding stages and may fail, hexEnc and hashFn are total.
-/

/-- Python str.split on a comma, modelled by structural recursion over
the characters; mirrors auth.split in extract_credentials. -/
def splitCommaAux : List Char → List Char → List String
  | [], acc => [String.mk acc.reverse]
  | c :: cs, acc =>
    if c = ',' then String.mk acc.reverse :: splitCommaAux cs []
    else splitCommaAux cs (c :: acc)

/-- Split a string at every comma, as Python str.split per the source. -/
def split_on_comma (s : String) : List String := splitCommaAux s.data []

/-- Python str.upper, modelled characterwise; used by the redirect
exception handler on the detail cookie. -/
def upperStr (s : String) : String := String.mk (s.data.map Char.toUpper)

/-- Python truthiness of an optional string: None and the empty string
are falsy, every other string is truthy. -/
def truthy : Option String → Bool
  | none => false
  | some v => v != ""

/-- The RedirectException of src/uiauth/models.py and
src/fastapiauthenticator/models.py: destination, source (default "/")
and detail (default the empty string). -/
structure RedirectException where
  destination : String
  source : String
  detail : String
deriving DecidableEq, Repr

/-- Client-visible outcome of one auth operation. -/
inductive Outcome where
  /-- verify_session returned normally: the request is allowed. -/
  | allow
  /-- verify_login returned the freshly minted session token. -/
  | ok (token : String)
  /-- the verification endpoint returned its redirect payload dict. -/
  | redirectUrl (url : String)
  /-- an HTTPException with the given status code and detail. -/
  | http (statusCode : Nat) (detail : String)
  /-- a RedirectException escaped to the boundary handler. -/
  | redirect (e : RedirectException)
  /-- an uncaught Python exception escaped (500-class server error). -/
  | pyError (msg : String)
deriving DecidableEq, Repr

/-- Handler bound to a path in the route table of the application. -/
inductive Handler where
  /-- a user-supplied protected handler. -/
  | real (name : String)
  /-- the session-expired page handler (endpoints.session). -/
  | sessionExpired
deriving DecidableEq, Repr

/-- One entry of app.routes: a path bound to a handler. -/
structure Route where
  path : String
  handler : Handler
deriving DecidableEq, Repr

/-- A response object as far as the claims observe it: response
headers and the cookies deleted on it. -/
structure Response where
  headers : String → Option String
  deletedCookies : List String

/-- Set one response header, overwriting a previous value. -/
def setHeader (r : Response) (k v : String) : Response :=
  { r with headers := fun x => if x = k then some v else r.headers x }

/-- FastAPI response.delete_cookie: records the cookie as cleared. -/
def delete_cookie (r : Response) (name : String) : Response :=
  { r with deletedCookies := r.deletedCookies ++ [name] }

/-- Body shape produced by the redirect exception handler. -/
inductive ResponseKind where
  /-- a JSONResponse whose content maps redirect_url to the given url. -/
  | jsonRedirectUrl (url : String)
  /-- a RedirectResponse to the given url. -/
  | httpRedirect (url : String)
deriving DecidableEq, Repr

/-- Response of the redirect exception handler: body shape, status
code, and the cookies it sets, in order. -/
structure HandlerResponse where
  kind : ResponseKind
  statusCode : Nat
  cookies : List (String × String)
deriving DecidableEq, Repr

namespace UIAuth

/-- src/uiauth/enums.py APIEndpoints.fastapi_error. -/
def fastapi_error : String := "/fastapi-error"

/-- src/uiauth/enums.py APIEndpoints.fastapi_login. -/
def fastapi_login : String := "/fastapi-login"

/-- src/uiauth/enums.py APIEndpoints.fastapi_logout. -/
def fastapi_logout : String := "/fastapi-logout"

/-- src/uiauth/enums.py APIEndpoints.fastapi_session. -/
def fastapi_session : String := "/fastapi-session"

/-- src/uiauth/enums.py APIEndpoints.fastapi_verify_login. -/
def fastapi_verify_login : String := "/fastapi-verify-login"

/-- The ws_session global of src/uiauth/models.py: the per-host failed
attempt counter and the per-host session token store. -/
structure WSSession where
  invalid : String → Option Nat
  client_auth : String → Option String

/-- src/uiauth/utils.py failed_auth_counter: increment the failure
count of the host (a missing key raises KeyError and the count is set
to 1), then raise a RedirectException to the error page when the new
count is at least 3. The optional Outcome is the raised exception. -/
def failed_auth_counter (s : WSSession) (host : String) :
    WSSession × Option Outcome :=
  let newCount :=
    match s.invalid host with
    | some c => c + 1
    | none => 1
  ({ s with invalid := fun h => if h = host then some newCount else s.invalid h },
   if 3 ≤ newCount then some (Outcome.redirect ⟨fastapi_error, "/", ""⟩)
   else none)

/-- src/uiauth/utils.py raise_error: run failed_auth_counter first; if
it raised, that exception propagates, otherwise raise the generic 401
with detail Incorrect username or password. -/
def raise_error (s : WSSession) (host : String) : WSSession × Outcome :=
  let r := failed_auth_counter s host
  (r.1, r.2.getD (Outcome.http 401 "Incorrect username or password"))

/-- src/uiauth/utils.py extract_credentials: run both decoding stages
(dec, supplied by the secure module which is outside src/) and split
the decoded string on commas. none means a decoding stage failed. -/
def extract_credentials (dec : String → Option String)
    (credentials : String) : Option (List String) :=
  (dec credentials).map split_on_comma

/-- src/uiauth/utils.py verify_login: decode the credential into
username, signature and timestamp (tuple unpacking raises ValueError
when the split does not have exactly three fields, and nothing in the
function catches a failure of the decoding stages), compare the
username, recompute the expected signature as
hashFn (hexEnc envUsername ++ hexEnc envPassword ++ timestamp), and on
a full match reset the failure counter of the host to 0, store the
fresh token freshKey (the value of secrets.token_urlsafe 64) for the
host, and return it. Every mismatch goes through raise_error. -/
def verify_login (dec : String → Option String)
    (hexEnc hashFn : String → String)
    (freshKey envUsername envPassword : String)
    (authorization : Option String) (host : String) (s : WSSession) :
    WSSession × Outcome :=
  match authorization with
  | none => raise_error s host
  | some creds =>
    match extract_credentials dec creds with
    | none => (s, Outcome.pyError "uncaught decode failure")
    | some fields =>
      match fields with
      | [username, signature, timestamp] =>
        if username = envUsername then
          let message := hexEnc envUsername ++ hexEnc envPassword ++ timestamp
          let expected_signature := hashFn message
          if signature = expected_signature then
            ({ invalid := fun h => if h = host then some 0 else s.invalid h,
               client_auth :=
                 fun h => if h = host then some freshKey else s.client_auth h },
             Outcome.ok freshKey)
          else raise_error s host
        else raise_error s host
      | _ => (s, Outcome.pyError "ValueError: unpacking the split credential")

/-- src/uiauth/utils.py verify_session: allow when the stored token
and the presented cookie token are both truthy and equal; raise a
redirect to the login page when the presented token is falsy; raise a
redirect to the session page otherwise. path is request.url.path. -/
def verify_session (session_token : Option String) (path host : String)
    (s : WSSession) : Outcome :=
  let stored_token := s.client_auth host
  if truthy stored_token && truthy session_token
      && (session_token == stored_token) then
    Outcome.allow
  else if !truthy session_token then
    Outcome.redirect ⟨fastapi_login, path, ""⟩
  else
    Outcome.redirect ⟨fastapi_session, path, ""⟩

/-- src/uiauth/utils.py deauthorize: set Cache-Control and blank the
Authorization header, then delete the session_token cookie. It does
not look at the request, so it deletes no other cookie. -/
def deauthorize (r : Response) : Response :=
  delete_cookie
    (setHeader (setHeader r "Cache-Control" "no-cache, no-store, must-revalidate")
      "Authorization" "")
    "session_token"

/-- src/uiauth/utils.py clear_session: pop the stored token of the
host when one is stored and truthy, otherwise only log. -/
def clear_session (host : String) (s : WSSession) : WSSession :=
  match s.client_auth host with
  | some tok =>
    if tok = "" then s
    else { s with client_auth := fun h => if h = host then none else s.client_auth h }
  | none => s

/-- src/uiauth/utils.py redirect_exception_handler: a JSONResponse
with content redirect_url when the request path is the verification
endpoint (default status 200), otherwise a RedirectResponse (default
status 307); then set the detail cookie (uppercased) when detail is
nonempty, and always set the X-Requested-By cookie to the source. -/
def redirect_exception_handler (requestPath : String)
    (e : RedirectException) : HandlerResponse :=
  let base : HandlerResponse :=
    if requestPath = fastapi_verify_login then
      { kind := ResponseKind.jsonRedirectUrl e.destination,
        statusCode := 200, cookies := [] }
    else
      { kind := ResponseKind.httpRedirect e.destination,
        statusCode := 307, cookies := [] }
  let withDetail :=
    if e.detail ≠ "" then
      { base with cookies := base.cookies ++ [("detail", upperStr e.detail)] }
    else base
  { withDetail with
    cookies := withDetail.cookies ++ [("X-Requested-By", e.source)] }

/-- The nbytes argument of the secrets.token_urlsafe call in
src/uiauth/utils.py verify_login. -/
def token_urlsafe_nbytes : Nat := 64

/-- The detail text of the 417 HTTPException raised by _verify_auth in
src/uiauth/service.py (quotation marks elided). -/
def detail417 : String :=
  "Unable to find secure route for the requested path.\nMissing cookie: X-Requested-By\nReload the source page to authenticate."

/-- Result of the verification endpoint _verify_auth of
src/uiauth/service.py: the new shared state, the outcome, the cookies
set and deleted on the response, and the host a clear_session timer
was scheduled for (the timer payload carries only the host). -/
structure VerifyAuthResult where
  state : WSSession
  outcome : Outcome
  cookiesSet : List (String × String)
  cookiesDeleted : List String
  timerHost : Option String

/-- src/uiauth/service.py FastAPIUIAuth._verify_auth: run verify_login
(any exception it raises propagates); on success, when the
X-Requested-By cookie is truthy set the session_token cookie, delete
the X-Requested-By cookie, start a clear_session timer for the host
and return the redirect payload; otherwise raise the 417 error with no
cookie set and no timer. -/
def verify_auth (dec : String → Option String)
    (hexEnc hashFn : String → String)
    (freshKey envUsername envPassword : String)
    (authorization xRequestedBy : Option String) (host : String)
    (s : WSSession) : VerifyAuthResult :=
  match verify_login dec hexEnc hashFn freshKey envUsername envPassword
      authorization host s with
  | (s2, Outcome.ok key) =>
    if truthy xRequestedBy then
      { state := s2, outcome := Outcome.redirectUrl (xRequestedBy.getD ""),
        cookiesSet := [("session_token", key)],
        cookiesDeleted := ["X-Requested-By"],
        timerHost := some host }
    else
      { state := s2, outcome := Outcome.http 417 detail417,
        cookiesSet := [], cookiesDeleted := [], timerHost := none }
  | (s2, o) =>
    { state := s2, outcome := o, cookiesSet := [], cookiesDeleted := [],
      timerHost := none }

/-- What the scheduled session-expiry timer of src/uiauth/service.py
does when it fires: it calls utils.clear_session with the host it was
created with, and touches nothing else; in particular the route table
of the application is not modified. -/
def timer_fire (routes : List Route) (host : String) (s : WSSession) :
    List Route × WSSession :=
  (routes, clear_session host s)

end UIAuth

namespace FAuth

/-- One value of ws_session.client_auth in
src/fastapiauthenticator/utils.py verify_login: username, token and
timestamp of the minted session. -/
structure SessionRecord where
  username : String
  token : String
  timestamp : Int
deriving DecidableEq, Repr

/-- The ws_session global of src/fastapiauthenticator/models.py. -/
structure WSSession where
  invalid : String → Option Nat
  client_auth : String → Option SessionRecord

/-- src/fastapiauthenticator/service.py _setup_session_route: remove
the secure route from app.routes (Python list.remove drops the first
equal element) and append a route for the same path bound to the
session-expired handler. -/
def setup_session_route (routes : List Route) (secureRoute : Route) :
    List Route :=
  (routes.erase secureRoute) ++ [{ path := secureRoute.path,
                                   handler := Handler.sessionExpired }]

/-- What the scheduled timer of _handle_session in
src/fastapiauthenticator/service.py does when it fires: it calls only
_setup_session_route with the captured secure route; the session store
is not touched (utils.clear_session is never scheduled). -/
def timer_fire (routes : List Route) (secureRoute : Route)
    (s : WSSession) : List Route × WSSession :=
  (setup_session_route routes secureRoute, s)

end FAuth

namespace FAuthEndpoints

/-- src/fastapiauthenticator/endpoints.py clear_session: delete every
cookie present on the request, then set Cache-Control and blank the
Authorization response header. -/
def clear_session (requestCookies : List String) (r : Response) :
    Response :=
  let r1 := requestCookies.foldl (fun acc c => delete_cookie acc c) r
  setHeader (setHeader r1 "Cache-Control" "no-cache, no-store, must-revalidate")
    "Authorization" ""

end FAuthEndpoints

/-- The empty shared state: no failure counts, no sessions. -/
def emptyWS : UIAuth.WSSession :=
  { invalid := fun _ => none, client_auth := fun _ => none }

/-! Theorems about the claims follow. -/

/-- C2: for every client identity submitting consecutive failed
verifications with no intervening success, each failure increments the
FailureCounter of that identity by exactly one (starting from absent
or 0), the 1st and 2nd consecutive failures raise the 401 Unauthorized
error, and the 3rd consecutive failure, not earlier, raises a
RedirectException whose destination is the error surface
/fastapi-error instead of the 401. -/
theorem failure_streak_escalation (s : UIAuth.WSSession) (host : String)
    (h0 : s.invalid host = none ∨ s.invalid host = some 0) :
    (∀ (t : UIAuth.WSSession) (c : Nat), t.invalid host = some c →
      (UIAuth.raise_error t host).1.invalid host = some (c + 1)) ∧
    (∀ (t : UIAuth.WSSession), t.invalid host = none →
      (UIAuth.raise_error t host).1.invalid host = some 1) ∧
    (UIAuth.raise_error s host).1.invalid host = some 1 ∧
    (UIAuth.raise_error s host).2
      = Outcome.http 401 "Incorrect username or password" ∧
    (UIAuth.raise_error (UIAuth.raise_error s host).1 host).1.invalid host
      = some 2 ∧
    (UIAuth.raise_error (UIAuth.raise_error s host).1 host).2
      = Outcome.http 401 "Incorrect username or password" ∧
    (UIAuth.raise_error
      (UIAuth.raise_error (UIAuth.raise_error s host).1 host).1 host).1.invalid
        host = some 3 ∧
    (UIAuth.raise_error
      (UIAuth.raise_error (UIAuth.raise_error s host).1 host).1 host).2
      = Outcome.redirect ⟨UIAuth.fastapi_error, "/", ""⟩ := by
  refine ⟨?_, ?_, ?_⟩
  · intro t c ht
    simp [UIAuth.raise_error, UIAuth.failed_auth_counter, ht]
  · intro t ht
    simp [UIAuth.raise_error, UIAuth.failed_auth_counter, ht]
  · rcases h0 with h | h <;>
      simp [UIAuth.raise_error, UIAuth.failed_auth_counter, h]

/-- Witness for C2: the escalation theorem evaluated on the empty
state and a concrete host. -/
theorem failure_streak_escalation_witness :
    (emptyWS.invalid "1.2.3.4" = none) ∧
    (UIAuth.raise_error emptyWS "1.2.3.4").2
      = Outcome.http 401 "Incorrect username or password" ∧
    (UIAuth.raise_error
      (UIAuth.raise_error (UIAuth.raise_error emptyWS "1.2.3.4").1
        "1.2.3.4").1 "1.2.3.4").2
      = Outcome.redirect ⟨UIAuth.fastapi_error, "/", ""⟩ := by
  have h := failure_streak_escalation emptyWS "1.2.3.4" (Or.inl rfl)
  exact ⟨rfl, h.2.2.2.1, h.2.2.2.2.2.2.2⟩

/-- A state holding one session: token tok1 stored for host 1.2.3.4. -/
def oneSessionWS : UIAuth.WSSession :=
  { invalid := fun _ => none,
    client_auth := fun h => if h = "1.2.3.4" then some "tok1" else none }

/-- C4 counterexample: a session_token cookie that is presented with
the empty value differs from the stored token tok1, yet verify_session
redirects to the login surface, not to the session-expired surface the
claim requires for a presented-but-mismatching token (Python treats
the empty cookie value as falsy). -/
theorem session_check_empty_cookie_counterexample :
    UIAuth.verify_session (some "") "/secure" "1.2.3.4" oneSessionWS
      = Outcome.redirect ⟨UIAuth.fastapi_login, "/secure", ""⟩ ∧
    some "" ≠ oneSessionWS.client_auth "1.2.3.4" ∧
    Outcome.redirect ⟨UIAuth.fastapi_login, "/secure", ""⟩
      ≠ Outcome.redirect ⟨UIAuth.fastapi_session, "/secure", ""⟩ := by
  refine ⟨by decide, by decide, by decide⟩

/-- C4 amended: the session check is a three-way branch on the Python
truthiness of the presented cookie (a missing cookie and an
empty-valued cookie are both treated as no token): with a falsy token
it redirects to the login surface, with a truthy token equal to the
stored one it allows, with a truthy token different from the stored
one (including when nothing is stored) it redirects to the
session-expired surface, which is distinct from the login surface. -/
theorem session_check_three_way (tok : Option String) (path host : String)
    (s : UIAuth.WSSession) :
    (truthy tok = false →
      UIAuth.verify_session tok path host s
        = Outcome.redirect ⟨UIAuth.fastapi_login, path, ""⟩) ∧
    (truthy tok = true → tok = s.client_auth host →
      UIAuth.verify_session tok path host s = Outcome.allow) ∧
    (truthy tok = true → tok ≠ s.client_auth host →
      UIAuth.verify_session tok path host s
        = Outcome.redirect ⟨UIAuth.fastapi_session, path, ""⟩) ∧
    UIAuth.fastapi_session ≠ UIAuth.fastapi_login := by
  refine ⟨?_, ?_, ?_, by decide⟩
  · intro h
    simp [UIAuth.verify_session, h]
  · intro h he
    simp [UIAuth.verify_session, ← he, h]
  · intro h hne
    have hb : (tok == s.client_auth host) = false := by
      simp [hne]
    simp [UIAuth.verify_session, h, hb]

/-- Witness for C4 amended: the three branches evaluated concretely on
the one-session state. -/
theorem session_check_three_way_witness :
    UIAuth.verify_session none "/secure" "1.2.3.4" oneSessionWS
      = Outcome.redirect ⟨UIAuth.fastapi_login, "/secure", ""⟩ ∧
    UIAuth.verify_session (some "tok1") "/secure" "1.2.3.4" oneSessionWS
      = Outcome.allow ∧
    UIAuth.verify_session (some "tok2") "/secure" "1.2.3.4" oneSessionWS
      = Outcome.redirect ⟨UIAuth.fastapi_session, "/secure", ""⟩ := by
  refine ⟨?_, ?_, ?_⟩
  · exact (session_check_three_way none "/secure" "1.2.3.4" oneSessionWS).1
      (by decide)
  · exact (session_check_three_way (some "tok1") "/secure" "1.2.3.4"
      oneSessionWS).2.1 (by decide) (by decide)
  · exact (session_check_three_way (some "tok2") "/secure" "1.2.3.4"
      oneSessionWS).2.2.1 (by decide) (by decide)

/-- Concrete stand-in for the composed decoding stages of the secure
module, used by witnesses: every raw credential decodes to the fixed
well-formed triple string. -/
def dec0 : String → Option String := fun _ => some "admin,adminhunter2100X,100"

/-- Concrete stand-in for hex_encode used by witnesses. -/
def enc0 : String → String := fun x => x

/-- Concrete stand-in for calculate_hash used by witnesses. -/
def hash0 : String → String := fun m => m ++ "X"

/-- Helper: on a credential that decodes and splits into the matching
username, the correctly recomputed signature and a timestamp,
verify_login succeeds: it returns the fresh token and the state where
the failure counter of the host is 0 and the token is stored for the
host. -/
theorem verify_login_success_eq (dec : String → Option String)
    (hexEnc hashFn : String → String) (key eu ep ts raw host : String)
    (s : UIAuth.WSSession)
    (hx : UIAuth.extract_credentials dec raw
      = some [eu, hashFn (hexEnc eu ++ hexEnc ep ++ ts), ts]) :
    UIAuth.verify_login dec hexEnc hashFn key eu ep (some raw) host s
      = ({ invalid := fun h => if h = host then some 0 else s.invalid h,
           client_auth := fun h => if h = host then some key else s.client_auth h },
         Outcome.ok key) := by
  simp [UIAuth.verify_login, hx]

/-- C3: a credential triple with the configured username and a
signature equal to the keyed hash of
hexEncode username ++ hexEncode password ++ timestamp makes
verify_login store a session token for the client identity such that
verify_session with that exact token allows the same identity, and
denies any different identity presenting that token (the fresh token
is not the one stored for the other identity). -/
theorem login_session_roundtrip (dec : String → Option String)
    (hexEnc hashFn : String → String)
    (key eu ep ts raw path host h2 : String) (s : UIAuth.WSSession)
    (hx : UIAuth.extract_credentials dec raw
      = some [eu, hashFn (hexEnc eu ++ hexEnc ep ++ ts), ts])
    (hkey : key ≠ "") :
    (UIAuth.verify_login dec hexEnc hashFn key eu ep (some raw) host s).2
      = Outcome.ok key ∧
    UIAuth.verify_session (some key) path host
      (UIAuth.verify_login dec hexEnc hashFn key eu ep (some raw) host s).1
      = Outcome.allow ∧
    (h2 ≠ host → s.client_auth h2 ≠ some key →
      UIAuth.verify_session (some key) path h2
        (UIAuth.verify_login dec hexEnc hashFn key eu ep (some raw) host s).1
        ≠ Outcome.allow) := by
  have hlogin := verify_login_success_eq dec hexEnc hashFn key eu ep ts raw host s hx
  refine ⟨by rw [hlogin], ?_, ?_⟩
  · rw [hlogin]
    simp [UIAuth.verify_session, truthy, hkey]
  · intro hne hfresh
    rw [hlogin]
    have hxk : some key ≠ s.client_auth h2 := fun hh => hfresh hh.symm
    have hb : ((some key : Option String) == s.client_auth h2) = false := by
      simp [hxk]
    simp [UIAuth.verify_session, truthy, hkey, hne, hb]

/-- Witness for C3: the roundtrip evaluated on concrete fixtures; the
second identity presenting the fresh token is denied. -/
theorem login_session_roundtrip_witness :
    (UIAuth.verify_login dec0 enc0 hash0 "k64" "admin" "hunter2"
      (some "rawcred") "10.0.0.1" emptyWS).2 = Outcome.ok "k64" ∧
    UIAuth.verify_session (some "k64") "/secure" "10.0.0.1"
      (UIAuth.verify_login dec0 enc0 hash0 "k64" "admin" "hunter2"
        (some "rawcred") "10.0.0.1" emptyWS).1 = Outcome.allow ∧
    UIAuth.verify_session (some "k64") "/secure" "10.0.0.2"
      (UIAuth.verify_login dec0 enc0 hash0 "k64" "admin" "hunter2"
        (some "rawcred") "10.0.0.1" emptyWS).1 ≠ Outcome.allow := by
  have h := login_session_roundtrip dec0 enc0 hash0 "k64" "admin" "hunter2"
    "100" "rawcred" "/secure" "10.0.0.1" "10.0.0.2" emptyWS
    (by decide) (by decide)
  exact ⟨h.1, h.2.1, h.2.2 (by decide) (by decide)⟩

/-- C7: on every successful verification the failure counter of the
client identity is reset to zero even if prior failures existed, the
stored record for that identity becomes exactly the fresh token
(overwriting any prior record, so the map holds at most one record per
identity), every other identity is untouched, and the token is minted
from secrets.token_urlsafe with at least 64 bytes of randomness. -/
theorem login_success_state (dec : String → Option String)
    (hexEnc hashFn : String → String) (key eu ep ts raw host : String)
    (s : UIAuth.WSSession)
    (hx : UIAuth.extract_credentials dec raw
      = some [eu, hashFn (hexEnc eu ++ hexEnc ep ++ ts), ts]) :
    (UIAuth.verify_login dec hexEnc hashFn key eu ep (some raw) host s).2
      = Outcome.ok key ∧
    (UIAuth.verify_login dec hexEnc hashFn key eu ep (some raw) host s).1.invalid
      host = some 0 ∧
    (UIAuth.verify_login dec hexEnc hashFn key eu ep (some raw) host s).1.client_auth
      host = some key ∧
    (∀ h, h ≠ host →
      (UIAuth.verify_login dec hexEnc hashFn key eu ep (some raw) host s).1.client_auth
        h = s.client_auth h ∧
      (UIAuth.verify_login dec hexEnc hashFn key eu ep (some raw) host s).1.invalid
        h = s.invalid h) ∧
    64 ≤ UIAuth.token_urlsafe_nbytes := by
  have hlogin := verify_login_success_eq dec hexEnc hashFn key eu ep ts raw host s hx
  refine ⟨by rw [hlogin], by rw [hlogin]; simp, by rw [hlogin]; simp, ?_,
    by decide⟩
  intro h hne
  rw [hlogin]
  simp [hne]

/-- Witness for C7: a prior failure count of 2 and a prior session of
another identity, evaluated concretely. -/
theorem login_success_state_witness :
    ({ invalid := fun h => if h = "10.0.0.1" then some 2 else none,
       client_auth := fun h => if h = "10.0.0.9" then some "old" else none
       : UIAuth.WSSession }).invalid "10.0.0.1" = some 2 ∧
    (UIAuth.verify_login dec0 enc0 hash0 "k64" "admin" "hunter2"
      (some "rawcred") "10.0.0.1"
      { invalid := fun h => if h = "10.0.0.1" then some 2 else none,
        client_auth := fun h => if h = "10.0.0.9" then some "old" else none
        }).1.invalid "10.0.0.1" = some 0 ∧
    (UIAuth.verify_login dec0 enc0 hash0 "k64" "admin" "hunter2"
      (some "rawcred") "10.0.0.1"
      { invalid := fun h => if h = "10.0.0.1" then some 2 else none,
        client_auth := fun h => if h = "10.0.0.9" then some "old" else none
        }).1.client_auth "10.0.0.1" = some "k64" ∧
    (UIAuth.verify_login dec0 enc0 hash0 "k64" "admin" "hunter2"
      (some "rawcred") "10.0.0.1"
      { invalid := fun h => if h = "10.0.0.1" then some 2 else none,
        client_auth := fun h => if h = "10.0.0.9" then some "old" else none
        }).1.client_auth "10.0.0.9" = some "old" := by
  have h := login_success_state dec0 enc0 hash0 "k64" "admin" "hunter2"
    "100" "rawcred" "10.0.0.1"
    { invalid := fun h => if h = "10.0.0.1" then some 2 else none,
      client_auth := fun h => if h = "10.0.0.9" then some "old" else none }
    (by decide)
  exact ⟨rfl, h.2.1, h.2.2.1, (h.2.2.2.1 "10.0.0.9" (by decide)).1⟩

/-- C10: when the credential verifies but the request carries no
X-Requested-By cookie, the verification endpoint raises the 417 error
and sets no session_token cookie, yet the server-side success-path
mutations stand: the fresh session record is stored for the identity
and its failure counter is reset to zero. -/
theorem verify_endpoint_417_keeps_session (dec : String → Option String)
    (hexEnc hashFn : String → String) (key eu ep ts raw host : String)
    (s : UIAuth.WSSession)
    (hx : UIAuth.extract_credentials dec raw
      = some [eu, hashFn (hexEnc eu ++ hexEnc ep ++ ts), ts]) :
    (UIAuth.verify_auth dec hexEnc hashFn key eu ep (some raw) none host s).outcome
      = Outcome.http 417 UIAuth.detail417 ∧
    (UIAuth.verify_auth dec hexEnc hashFn key eu ep (some raw) none host s).cookiesSet
      = [] ∧
    (UIAuth.verify_auth dec hexEnc hashFn key eu ep (some raw) none host s).state.client_auth
      host = some key ∧
    (UIAuth.verify_auth dec hexEnc hashFn key eu ep (some raw) none host s).state.invalid
      host = some 0 := by
  have hlogin := verify_login_success_eq dec hexEnc hashFn key eu ep ts raw host s hx
  refine ⟨?_, ?_, ?_, ?_⟩ <;>
    simp [UIAuth.verify_auth, hlogin, truthy]

/-- Witness for C10: the 417 path evaluated on concrete fixtures. -/
theorem verify_endpoint_417_keeps_session_witness :
    (UIAuth.verify_auth dec0 enc0 hash0 "k64" "admin" "hunter2"
      (some "rawcred") none "10.0.0.1" emptyWS).outcome
      = Outcome.http 417 UIAuth.detail417 ∧
    (UIAuth.verify_auth dec0 enc0 hash0 "k64" "admin" "hunter2"
      (some "rawcred") none "10.0.0.1" emptyWS).cookiesSet = [] ∧
    (UIAuth.verify_auth dec0 enc0 hash0 "k64" "admin" "hunter2"
      (some "rawcred") none "10.0.0.1" emptyWS).state.client_auth "10.0.0.1"
      = some "k64" ∧
    (UIAuth.verify_auth dec0 enc0 hash0 "k64" "admin" "hunter2"
      (some "rawcred") none "10.0.0.1" emptyWS).state.invalid "10.0.0.1"
      = some 0 :=
  verify_endpoint_417_keeps_session dec0 enc0 hash0 "k64" "admin" "hunter2"
    "100" "rawcred" "10.0.0.1" emptyWS (by decide)

/-- C1: the scheduled session-expiry action of src/uiauth/service.py
is keyed only by the client host, with no snapshot of the session
token it was created for. Evaluated on the concrete scenario: a first
login stores token k1 and schedules the timer, a second login for the
same identity stores token k2 before the timer fires, and the stale
timer firing then removes the new record, so the session check with
the new token k2 redirects to the session-expired surface instead of
allowing. -/
theorem stale_timer_kills_new_session :
    (UIAuth.verify_auth dec0 enc0 hash0 "k1" "admin" "hunter2"
      (some "rawcred") (some "/secure") "10.0.0.1" emptyWS).timerHost
      = some "10.0.0.1" ∧
    (UIAuth.verify_auth dec0 enc0 hash0 "k2" "admin" "hunter2"
      (some "rawcred") (some "/secure") "10.0.0.1"
      (UIAuth.verify_auth dec0 enc0 hash0 "k1" "admin" "hunter2"
        (some "rawcred") (some "/secure") "10.0.0.1"
        emptyWS).state).state.client_auth "10.0.0.1" = some "k2" ∧
    (UIAuth.clear_session "10.0.0.1"
      (UIAuth.verify_auth dec0 enc0 hash0 "k2" "admin" "hunter2"
        (some "rawcred") (some "/secure") "10.0.0.1"
        (UIAuth.verify_auth dec0 enc0 hash0 "k1" "admin" "hunter2"
          (some "rawcred") (some "/secure") "10.0.0.1"
          emptyWS).state).state).client_auth "10.0.0.1" = none ∧
    UIAuth.verify_session (some "k2") "/secure" "10.0.0.1"
      (UIAuth.clear_session "10.0.0.1"
        (UIAuth.verify_auth dec0 enc0 hash0 "k2" "admin" "hunter2"
          (some "rawcred") (some "/secure") "10.0.0.1"
          (UIAuth.verify_auth dec0 enc0 hash0 "k1" "admin" "hunter2"
            (some "rawcred") (some "/secure") "10.0.0.1"
            emptyWS).state).state)
      = Outcome.redirect ⟨UIAuth.fastapi_session, "/secure", ""⟩ ∧
    UIAuth.verify_session (some "k2") "/secure" "10.0.0.1"
      (UIAuth.clear_session "10.0.0.1"
        (UIAuth.verify_auth dec0 enc0 hash0 "k2" "admin" "hunter2"
          (some "rawcred") (some "/secure") "10.0.0.1"
          (UIAuth.verify_auth dec0 enc0 hash0 "k1" "admin" "hunter2"
            (some "rawcred") (some "/secure") "10.0.0.1"
            emptyWS).state).state) ≠ Outcome.allow := by
  refine ⟨by decide, by decide, by decide, by decide, by decide⟩

/-- C6: a raw credential whose decoded string does not split into
exactly three comma-separated fields makes verify_login raise the
ValueError of tuple unpacking, which nothing in the function catches:
the caller sees a 500-class server error instead of the generic 401,
and the failure counter is not even incremented; a well-formed
credential with a wrong username, by contrast, yields the generic
401. The two failure classes are therefore distinguishable. -/
theorem malformed_credential_unpack_error :
    (UIAuth.verify_login (fun _ => some "admin") enc0 hash0 "k" "admin"
      "hunter2" (some "rawcred") "10.0.0.1" emptyWS).2
      = Outcome.pyError "ValueError: unpacking the split credential" ∧
    (UIAuth.verify_login (fun _ => some "admin") enc0 hash0 "k" "admin"
      "hunter2" (some "rawcred") "10.0.0.1" emptyWS).2
      ≠ Outcome.http 401 "Incorrect username or password" ∧
    (UIAuth.verify_login (fun _ => some "admin") enc0 hash0 "k" "admin"
      "hunter2" (some "rawcred") "10.0.0.1" emptyWS).1.invalid "10.0.0.1"
      = none ∧
    (UIAuth.verify_login (fun _ => some "eve,sig,100") enc0 hash0 "k"
      "admin" "hunter2" (some "rawcred") "10.0.0.1" emptyWS).2
      = Outcome.http 401 "Incorrect username or password" := by
  refine ⟨by decide, by decide, by decide, by decide⟩

/-- A protected route bound to its real handler, used by the C5
scenario. -/
def c5route : Route := { path := "/secure", handler := Handler.real "secure_function" }

/-- A fastapiauthenticator store holding one session record. -/
def c5fs : FAuth.WSSession :=
  { invalid := fun _ => none,
    client_auth := fun h =>
      if h = "10.0.0.1" then some ⟨"admin", "tok", 100⟩ else none }

/-- C5 counterexample: when the fastapiauthenticator timer fires it
flips the route binding to the session-expired handler, but the
session record of the client identity is still stored afterwards, so
the two claimed effects do not both occur. -/
theorem fauth_timer_leaves_record :
    (FAuth.timer_fire [c5route] c5route c5fs).1
      = [{ path := "/secure", handler := Handler.sessionExpired }] ∧
    (FAuth.timer_fire [c5route] c5route c5fs).2.client_auth "10.0.0.1"
      = some ⟨"admin", "tok", 100⟩ ∧
    (FAuth.timer_fire [c5route] c5route c5fs).2.client_auth "10.0.0.1"
      ≠ none := by
  refine ⟨by decide, by decide, by decide⟩

/-- C5 amended: each implementation performs exactly one of the two
claimed effects. In uiauth the fired timer removes the session record
of the client identity, so a subsequent session check with the old
token denies, while the route table is unchanged. In
fastapiauthenticator the fired timer replaces the secure route with a
binding of the same path to the session-expired handler, while the
session store is unchanged. -/
theorem timer_fire_effects :
    (∀ (routes : List Route) (host path tok : String) (s : UIAuth.WSSession),
      s.client_auth host = some tok → tok ≠ "" →
      (UIAuth.timer_fire routes host s).1 = routes ∧
      (UIAuth.timer_fire routes host s).2.client_auth host = none ∧
      UIAuth.verify_session (some tok) path host
        (UIAuth.timer_fire routes host s).2 ≠ Outcome.allow) ∧
    (∀ (routes : List Route) (secureRoute : Route) (fs : FAuth.WSSession),
      routes.count secureRoute = 1 →
      secureRoute.handler ≠ Handler.sessionExpired →
      secureRoute ∉ (FAuth.timer_fire routes secureRoute fs).1 ∧
      ({ path := secureRoute.path, handler := Handler.sessionExpired } : Route)
        ∈ (FAuth.timer_fire routes secureRoute fs).1 ∧
      (FAuth.timer_fire routes secureRoute fs).2 = fs) := by
  constructor
  · intro routes host path tok s hstore htok
    have hclear : (UIAuth.timer_fire routes host s).2.client_auth host = none := by
      simp [UIAuth.timer_fire, UIAuth.clear_session, hstore, htok]
    refine ⟨rfl, hclear, ?_⟩
    simp [UIAuth.verify_session, hclear, truthy, htok]
  · intro routes secureRoute fs hcount hhandler
    have h1 : secureRoute ∉ routes.erase secureRoute := by
      have hc := List.count_erase_self secureRoute routes
      rw [hcount] at hc
      exact List.count_eq_zero.mp hc
    have h2 : secureRoute
        ≠ ({ path := secureRoute.path, handler := Handler.sessionExpired } : Route) := by
      intro hh
      exact hhandler (congrArg Route.handler hh)
    refine ⟨?_, ?_, rfl⟩
    · simp [FAuth.timer_fire, FAuth.setup_session_route, h1, h2]
    · simp [FAuth.timer_fire, FAuth.setup_session_route]

/-- Witness for C5 amended: both halves evaluated on concrete data. -/
theorem timer_fire_effects_witness :
    UIAuth.verify_session (some "tok1") "/secure" "1.2.3.4"
      (UIAuth.timer_fire [c5route] "1.2.3.4" oneSessionWS).2
      ≠ Outcome.allow ∧
    c5route ∉ (FAuth.timer_fire [c5route] c5route c5fs).1 ∧
    (FAuth.timer_fire [c5route] c5route c5fs).2 = c5fs := by
  have hu := timer_fire_effects.1 [c5route] "1.2.3.4" "/secure" "tok1"
    oneSessionWS (by decide) (by decide)
  have hf := timer_fire_effects.2 [c5route] c5route c5fs (by decide) (by decide)
  exact ⟨hu.2.2, hf.1, hf.2.2⟩

/-- C8: the boundary translator produces exactly one of two shapes
decided by the request path: a JSON body carrying the destination
under redirect_url with status 200 on the verification endpoint, and
an HTTP redirect response to the destination otherwise; when the
detail of the signal is nonempty a cookie holding the uppercased
detail is set, and a cookie holding the source path of the signal is
always set. -/
theorem redirect_translator_shape (requestPath : String)
    (e : RedirectException) :
    (requestPath = UIAuth.fastapi_verify_login →
      (UIAuth.redirect_exception_handler requestPath e).kind
        = ResponseKind.jsonRedirectUrl e.destination ∧
      (UIAuth.redirect_exception_handler requestPath e).statusCode = 200) ∧
    (requestPath ≠ UIAuth.fastapi_verify_login →
      (UIAuth.redirect_exception_handler requestPath e).kind
        = ResponseKind.httpRedirect e.destination ∧
      (UIAuth.redirect_exception_handler requestPath e).statusCode = 307) ∧
    (e.detail ≠ "" →
      ("detail", upperStr e.detail)
        ∈ (UIAuth.redirect_exception_handler requestPath e).cookies) ∧
    ("X-Requested-By", e.source)
      ∈ (UIAuth.redirect_exception_handler requestPath e).cookies := by
  by_cases hp : requestPath = UIAuth.fastapi_verify_login <;>
    by_cases hd : e.detail = "" <;>
      simp [UIAuth.redirect_exception_handler, hp, hd]

/-- Witness for C8: the translator evaluated on a concrete signal from
the verification endpoint and from a browser page. -/
theorem redirect_translator_shape_witness :
    (UIAuth.redirect_exception_handler "/fastapi-verify-login"
      ⟨"/fastapi-error", "/secure", "locked"⟩).kind
      = ResponseKind.jsonRedirectUrl "/fastapi-error" ∧
    (UIAuth.redirect_exception_handler "/fastapi-verify-login"
      ⟨"/fastapi-error", "/secure", "locked"⟩).statusCode = 200 ∧
    (UIAuth.redirect_exception_handler "/secure"
      ⟨"/fastapi-error", "/secure", "locked"⟩).kind
      = ResponseKind.httpRedirect "/fastapi-error" ∧
    ("detail", "LOCKED")
      ∈ (UIAuth.redirect_exception_handler "/secure"
        ⟨"/fastapi-error", "/secure", "locked"⟩).cookies ∧
    ("X-Requested-By", "/secure")
      ∈ (UIAuth.redirect_exception_handler "/secure"
        ⟨"/fastapi-error", "/secure", "locked"⟩).cookies := by
  have h1 := redirect_translator_shape "/fastapi-verify-login"
    ⟨"/fastapi-error", "/secure", "locked"⟩
  have h2 := redirect_translator_shape "/secure"
    ⟨"/fastapi-error", "/secure", "locked"⟩
  have hup : upperStr "locked" = "LOCKED" := by decide
  refine ⟨(h1.1 (by decide)).1, (h1.1 (by decide)).2,
    (h2.2.1 (by decide)).1, ?_, h2.2.2.2⟩
  have := h2.2.2.1 (by decide)
  rwa [hup] at this

/-- A response with no headers and no deleted cookies yet. -/
def resp0 : Response := { headers := fun _ => none, deletedCookies := [] }

/-- C9 counterexample: uiauth deauthorize never looks at the request;
it deletes only the session_token cookie, so a detail cookie present
on the request is not cleared. -/
theorem deauthorize_misses_request_cookies :
    (UIAuth.deauthorize resp0).deletedCookies = ["session_token"] ∧
    "detail" ∉ (UIAuth.deauthorize resp0).deletedCookies := by
  refine ⟨rfl, by decide⟩

/-- Helper: folding delete_cookie over a cookie list appends exactly
that list to the deleted cookies and leaves the headers unchanged. -/
theorem foldl_delete_cookie (cs : List String) (r : Response) :
    (cs.foldl (fun acc c => delete_cookie acc c) r).deletedCookies
      = r.deletedCookies ++ cs ∧
    (cs.foldl (fun acc c => delete_cookie acc c) r).headers = r.headers := by
  induction cs generalizing r with
  | nil => simp
  | cons c tl ih =>
    have := ih (delete_cookie r c)
    simp only [List.foldl_cons] at *
    refine ⟨?_, ?_⟩
    · rw [this.1]
      simp [delete_cookie]
    · rw [this.2]
      simp [delete_cookie]

/-- C9 amended: the fastapiauthenticator endpoint helper clear_session
deletes every cookie present on the request, sets Cache-Control to
no-cache, no-store, must-revalidate and blanks the Authorization
header; the uiauth deauthorize sets the same two headers but deletes
only the session_token cookie, independent of the request. -/
theorem deauthorize_headers_and_cookies :
    (∀ (cs : List String) (r : Response) (c : String), c ∈ cs →
      c ∈ (FAuthEndpoints.clear_session cs r).deletedCookies) ∧
    (∀ (cs : List String) (r : Response),
      (FAuthEndpoints.clear_session cs r).headers "Cache-Control"
        = some "no-cache, no-store, must-revalidate" ∧
      (FAuthEndpoints.clear_session cs r).headers "Authorization"
        = some "") ∧
    (∀ r : Response,
      (UIAuth.deauthorize r).headers "Cache-Control"
        = some "no-cache, no-store, must-revalidate" ∧
      (UIAuth.deauthorize r).headers "Authorization" = some "" ∧
      (UIAuth.deauthorize r).deletedCookies
        = r.deletedCookies ++ ["session_token"]) := by
  refine ⟨?_, ?_, ?_⟩
  · intro cs r c hc
    have hf := foldl_delete_cookie cs r
    simp [FAuthEndpoints.clear_session, setHeader, hf.1, hc]
  · intro cs r
    constructor <;> simp [FAuthEndpoints.clear_session, setHeader]
  · intro r
    refine ⟨?_, ?_, ?_⟩ <;>
      simp [UIAuth.deauthorize, setHeader, delete_cookie]

/-- Witness for C9 amended: both operations evaluated on a request
carrying a session_token and a detail cookie. -/
theorem deauthorize_headers_and_cookies_witness :
    "detail" ∈ (FAuthEndpoints.clear_session ["session_token", "detail"]
      resp0).deletedCookies ∧
    (FAuthEndpoints.clear_session ["session_token", "detail"]
      resp0).headers "Authorization" = some "" ∧
    (UIAuth.deauthorize resp0).headers "Cache-Control"
      = some "no-cache, no-store, must-revalidate" := by
  refine ⟨deauthorize_headers_and_cookies.1 ["session_token", "detail"]
    resp0 "detail" (by decide), ?_, ?_⟩
  · exact (deauthorize_headers_and_cookies.2.1
      ["session_token", "detail"] resp0).2
  · exact (deauthorize_headers_and_cookies.2.2 resp0).1
